import Mathlib

set_option maxHeartbeats 1000000

/-!
Shallow embedding of the session-scoped file/record lifecycle manager of the
image-optimizer repository (src/app/api/convert/route.ts and
src/app/api/download/route.ts).  File contents are abstracted away: the disk
is modelled as the list of existing file paths, and the opaque Convert
capability is modelled by a size oracle parameter, exactly as the
specification treats it (an opaque byte transformer whose output size is
recorded).  All naming, lookup, commit, reconciliation and deletion logic is
translated from the TypeScript source.
-/

/-- Characters of the JS safe-name class in convert/route.ts,
the regex class of letters, digits, dot, underscore and dash. -/
def isSafeChar (c : Char) : Bool :=
  c.isAlpha || c.isDigit || c == '.' || c == '_' || c == '-'

/-- normalizeFileName from convert/route.ts: every character outside the safe
class is replaced by an underscore. -/
def normalizeFileName (s : String) : String :=
  String.mk (s.data.map (fun c => if isSafeChar c then c else '_'))

/-- Split a reversed character list at the first dot, returning the characters
read before the dot and the remainder after it. -/
def splitAtDot : List Char → Option (List Char × List Char)
  | [] => none
  | c :: cs =>
    if c == '.' then some ([], cs)
    else
      match splitAtDot cs with
      | some (e, r) => some (c :: e, r)
      | none => none

/-- The JS extension-stripping replace in convert/route.ts: remove a trailing
dot plus a nonempty, slash-free, dot-free extension (which is exactly the part
after the last dot). -/
def stripExtChars (cs : List Char) : List Char :=
  match splitAtDot cs.reverse with
  | some (ext, rest) =>
    if ext.isEmpty || ext.contains '/' then cs else rest.reverse
  | none => cs

/-- String form of stripExtChars. -/
def stripExtS (s : String) : String :=
  String.mk (stripExtChars s.data)

/-- The JS timestamp-suffix-stripping replace in convert/route.ts: remove a
trailing underscore followed by exactly fourteen digits. -/
def stripTs14 (cs : List Char) : List Char :=
  let r := cs.reverse
  let ds := r.take 14
  if ds.length == 14 && ds.all (fun c => c.isDigit) && (r.get? 14 == some '_') then
    (r.drop 15).reverse
  else cs

/-- The characters after the last dot of a name (the whole name when it has no
dot): models the JS idiom of splitting on dots and taking the last piece. -/
def lastDotSeg (cs : List Char) : List Char :=
  match splitAtDot cs.reverse with
  | some (ext, _) => ext.reverse
  | none => cs

/-- The original-file extension chosen by convert/route.ts: the last
dot-separated segment of the upload name, with the fallback img when that
segment is empty. -/
def origExtOf (name : String) : String :=
  let seg := lastDotSeg name.data
  if seg.isEmpty then "img" else String.mk seg

/-- Decimal digit rendering of a natural number, least significant digit
last, as produced by the JS number-to-string conversion. -/
def natToDec (n : Nat) : List Char :=
  if h : n < 10 then [Nat.digitChar n]
  else natToDec (n / 10) ++ [Nat.digitChar (n % 10)]
decreasing_by
  exact Nat.div_lt_self (by omega) (by omega)

/-- The JS two-digit zero padding used for the reconvert timestamp. -/
def pad2 (n : Nat) : List Char :=
  if n < 10 then '0' :: natToDec n else natToDec n

/-- The fourteen-character reconvert timestamp DDMMYYYYHHMMSS built in
convert/route.ts from the current date (month already incremented). -/
def mkTimestamp (day month1 year hour minute second : Nat) : String :=
  String.mk (pad2 day ++ pad2 month1 ++ natToDec year ++ pad2 hour ++
    pad2 minute ++ pad2 second)

/-- The reconvert base name of convert/route.ts: the requested display name
with its extension and any previous fourteen-digit suffix stripped,
sanitized, then joined with the fresh timestamp by an underscore. -/
def deriveReconvertBase (toName ts : String) : String :=
  normalizeFileName (String.mk (stripTs14 (stripExtChars toName.data))) ++ "_" ++ ts

/-- The reconvert output file name of convert/route.ts. -/
def deriveReconvertName (toName ts fmt : String) : String :=
  deriveReconvertBase toName ts ++ "." ++ fmt

/-- The reconvert thumbnail name of convert/route.ts. -/
def reconvThumbName (toName ts : String) : String :=
  deriveReconvertBase toName ts ++ "_thumb.webp"

/-- The session root directory of convert/route.ts, with the process working
directory abstracted away. -/
def TMP_ROOT : String := "tmp/image-optimizer"

/-- The three allowed output formats of convert/route.ts. -/
def ALLOWED_FORMATS : List String := ["webp", "jpeg", "png"]

/-- The three allowed upload MIME types of convert/route.ts. -/
def ALLOWED_MIME : List String := ["image/jpeg", "image/png", "image/webp"]

/-- Path join, as used on slash-free names. -/
def joinP (d n : String) : String := d ++ "/" ++ n

/-- The per-session directory. -/
def sessDirOf (sid : String) : String := joinP TMP_ROOT sid

/-- The per-session output directory. -/
def outDirOf (sid : String) : String := sessDirOf sid ++ "/output"

/-- The per-session original directory. -/
def origDirOf (sid : String) : String := sessDirOf sid ++ "/original"

/-- The sanitized base of an upload name in convert/route.ts: the name with
its extension stripped, then normalized. -/
def safeBaseOf (name : String) : String :=
  normalizeFileName (stripExtS name)

/-- The name under which convert/route.ts saves an uploaded original:
sanitized base plus the raw last dot-segment of the upload name. -/
def safeOrigNameOf (name : String) : String :=
  safeBaseOf name ++ "." ++ origExtOf name

/-- The output storage name convert/route.ts derives for a fresh upload. -/
def uploadOutName (fmt name : String) : String :=
  safeBaseOf name ++ "." ++ fmt

/-- The thumbnail name convert/route.ts derives for a fresh upload. -/
def thumbNameOf (name : String) : String :=
  safeBaseOf name ++ "_thumb.webp"

/-- One row of the files table of convert/route.ts. -/
structure FileRecord where
  session_id : String
  file_name : String
  file_path : String
  format : String
  thumbnail_path : String
  original_file_name : String
  original_size : Nat
  converted_size : Nat
deriving DecidableEq

/-- The persistent state: the sessions table, the files table, the set of
existing file paths on disk and the set of existing directories. -/
structure SysState where
  sessions : List String
  files : List FileRecord
  disk : List String
  dirs : List String
deriving DecidableEq

/-- A fresh upload of the POST handler: raw bytes are abstracted to a size. -/
structure Upload where
  name : String
  mime : String
  size : Nat
deriving DecidableEq

/-- One descriptor of the POST response. -/
structure Desc where
  name : String
  normalizedName : String
  format : String
  thumbnail : String
  originalSize : Nat
  convertedSize : Nat
deriving DecidableEq

/-- One entry of the GET (list) response. -/
structure ListedFile where
  name : String
  format : String
  file : String
  thumbnail : String
  originalSize : Nat
  convertedSize : Nat
deriving DecidableEq

/-- The error outcomes of the POST handler: the 400 unsupported-format
rejection and the catch-all 500 processing failure. -/
inductive ApiError
  | unsupportedFormat
  | processingFailed
deriving DecidableEq

/-- The full input of one POST request: target format, optional client
session id, the id that would be generated when absent, the uploads, the
reconvert pairs, and the timestamp the handler would generate. -/
structure PostInput where
  format : String
  sessionId : Option String
  freshId : String
  uploads : List Upload
  reconverts : List (String × String)
  ts : String
deriving DecidableEq

/-- The SQL lookup of a record by session and display name (first row). -/
def findRecord (files : List FileRecord) (sid fname : String) : Option FileRecord :=
  files.find? (fun r => r.session_id == sid && r.file_name == fname)

/-- The SQL count of records of a session sharing an original file name. -/
def countOrig (files : List FileRecord) (sid oname : String) : Nat :=
  (files.filter (fun r => r.session_id == sid && r.original_file_name == oname)).length

/-- INSERT OR REPLACE keyed on the pair of session id and file path: the
conflicting row is dropped and the new row appended. -/
def insertOrReplace (db : List FileRecord) (r : FileRecord) : List FileRecord :=
  (db.filter (fun q => !(q.session_id == r.session_id && q.file_path == r.file_path))) ++ [r]

/-- Fold of insertOrReplace over a commit list. -/
def insertAllRecs (db : List FileRecord) (rs : List FileRecord) : List FileRecord :=
  rs.foldl insertOrReplace db

/-- Idempotent insertion of a path into the disk or directory set. -/
def insertStr (l : List String) (p : String) : List String :=
  if l.contains p then l else l ++ [p]

/-- Fold of insertStr over several paths. -/
def insertAllStr (l : List String) (ps : List String) : List String :=
  ps.foldl insertStr l

/-- Best-effort unlink: removing an absent path is a no-op. -/
def unlinkP (disk : List String) (p : String) : List String :=
  disk.filter (fun q => q != p)

/-- Boolean list-prefix test on characters. -/
def chStarts : List Char → List Char → Bool
  | _, [] => true
  | [], _ :: _ => false
  | a :: as, b :: bs => a == b && chStarts as bs

/-- Boolean string-prefix test, modelling the JS startsWith. -/
def strStarts (s p : String) : Bool := chStarts s.data p.data

/-- Recursive forced removal of a directory: every file strictly below it
disappears. -/
def removeTreeP (disk : List String) (d : String) : List String :=
  disk.filter (fun p => !(strStarts p (d ++ "/")))

/-- The session id the POST handler uses: the client-supplied one when
present and nonempty, a freshly generated one otherwise. -/
def sidOf (inp : PostInput) : String :=
  match inp.sessionId with
  | some s => if s == "" then inp.freshId else s
  | none => inp.freshId

/-- The response descriptor convert/route.ts builds for a fresh upload. -/
def mkUploadDesc (csz : String → String → Nat) (fmt : String) (u : Upload) : Desc :=
  { name := u.name, normalizedName := uploadOutName fmt u.name, format := fmt,
    thumbnail := thumbNameOf u.name, originalSize := u.size,
    convertedSize := csz u.name fmt }

/-- The files row convert/route.ts commits for a fresh upload: the display
name and the original-file reference are both the raw upload name. -/
def mkUploadRec (csz : String → String → Nat) (sid fmt : String) (u : Upload) : FileRecord :=
  { session_id := sid, file_name := u.name, file_path := uploadOutName fmt u.name,
    format := fmt, thumbnail_path := thumbNameOf u.name,
    original_file_name := u.name, original_size := u.size,
    converted_size := csz u.name fmt }

/-- One reconvert item: resolve the source record by display name, require
its stored path to exist in the output or the original directory, and build
the response descriptor with the freshly derived names. -/
def processReconv (csz : String → String → Nat) (files : List FileRecord)
    (disk : List String) (sid fmt ts : String) (q : String × String) : Option Desc :=
  match findRecord files sid q.1 with
  | none => none
  | some r =>
    if disk.contains (joinP (outDirOf sid) r.file_path) ||
        disk.contains (joinP (origDirOf sid) r.file_path) then
      some { name := q.2, normalizedName := deriveReconvertName q.2 ts fmt,
             format := fmt, thumbnail := reconvThumbName q.2 ts,
             originalSize := r.original_size, convertedSize := csz r.file_path fmt }
    else none

/-- The files row convert/route.ts commits for a reconvert item: both the
display name and the original-file reference are the requested new display
name. -/
def mkReconvRec (sid : String) (d : Desc) : FileRecord :=
  { session_id := sid, file_name := d.name, file_path := d.normalizedName,
    format := d.format, thumbnail_path := d.thumbnail,
    original_file_name := d.name, original_size := d.originalSize,
    converted_size := d.convertedSize }

/-- The directory set after the two ensureDir calls of the POST handler. -/
def dirsAfter (st : SysState) (sid : String) : List String :=
  insertAllStr st.dirs [sessDirOf sid, origDirOf sid, outDirOf sid]

/-- The disk after the original writes of the allowed-MIME uploads (the
writes of valid items land even when a sibling throws). -/
def diskOrig (st : SysState) (sid : String) (uploads : List Upload) : List String :=
  insertAllStr st.disk
    ((uploads.filter (fun u => ALLOWED_MIME.contains u.mime)).map
      (fun u => joinP (origDirOf sid) (safeOrigNameOf u.name)))

/-- The disk after also writing the output and the thumbnail of every
upload of the batch. -/
def diskConv (st : SysState) (sid fmt : String) (uploads : List Upload) : List String :=
  insertAllStr
    (insertAllStr (diskOrig st sid uploads)
      (uploads.map (fun u => joinP (outDirOf sid) (uploadOutName fmt u.name))))
    (uploads.map (fun u => joinP (outDirOf sid) (thumbNameOf u.name)))

/-- The reconvert items of a batch, resolved against the pre-batch files
table and the post-upload disk. -/
def rItemsOf (csz : String → String → Nat) (st : SysState) (inp : PostInput) :
    List (Option Desc) :=
  inp.reconverts.map (processReconv csz st.files
    (diskConv st (sidOf inp) inp.format inp.uploads) (sidOf inp) inp.format inp.ts)

/-- The disk after also writing the outputs and thumbnails of the resolved
reconvert items. -/
def diskFinal (csz : String → String → Nat) (st : SysState) (inp : PostInput) : List String :=
  insertAllStr (diskConv st (sidOf inp) inp.format inp.uploads)
    (((rItemsOf csz st inp).filterMap id).foldr
      (fun d acc => joinP (outDirOf (sidOf inp)) d.normalizedName ::
        joinP (outDirOf (sidOf inp)) d.thumbnail :: acc) [])

/-- The rows a fully successful batch commits: one per upload, then one per
reconvert, in order. -/
def newRecsOf (csz : String → String → Nat) (st : SysState) (inp : PostInput) :
    List FileRecord :=
  inp.uploads.map (mkUploadRec csz (sidOf inp) inp.format) ++
    ((rItemsOf csz st inp).filterMap id).map (mkReconvRec (sidOf inp))

/-- The POST handler of convert/route.ts.  The format gate runs before any
directory or file is touched.  A disallowed MIME type or an unresolvable
reconvert source rejects the whole batch with the catch-all 500 error; the
writes of the non-failing items have already reached the disk, and no row is
committed.  On success the sessions row is ensured and one row per item is
upserted, uploads first, then reconverts. -/
def post (csz : String → String → Nat) (st : SysState) (inp : PostInput) :
    Except ApiError (String × List Desc) × SysState :=
  if !(ALLOWED_FORMATS.contains inp.format) then (.error .unsupportedFormat, st)
  else if !(inp.uploads.all (fun u => ALLOWED_MIME.contains u.mime)) then
    (.error .processingFailed,
     { st with dirs := dirsAfter st (sidOf inp),
               disk := diskOrig st (sidOf inp) inp.uploads })
  else if (rItemsOf csz st inp).any (fun o => o.isNone) then
    (.error .processingFailed,
     { st with dirs := dirsAfter st (sidOf inp), disk := diskFinal csz st inp })
  else
    (.ok (sidOf inp, inp.uploads.map (mkUploadDesc csz inp.format) ++
        (rItemsOf csz st inp).filterMap id),
     { sessions := insertStr st.sessions (sidOf inp),
       files := insertAllRecs st.files (newRecsOf csz st inp),
       disk := diskFinal csz st inp,
       dirs := dirsAfter st (sidOf inp) })

/-- The existence check of the GET handler: both the output file and the
thumbnail of a row must be present under the session output directory. -/
def bothExist (disk : List String) (sid fp tp : String) : Bool :=
  disk.contains (joinP (outDirOf sid) fp) && disk.contains (joinP (outDirOf sid) tp)

/-- The response entry the GET handler builds from a surviving row. -/
def listedOf (f : FileRecord) : ListedFile :=
  { name := f.file_name, format := f.format, file := f.file_path,
    thumbnail := f.thumbnail_path, originalSize := f.original_size,
    convertedSize := f.converted_size }

/-- The reconciliation loop of the GET handler: iterate the snapshot of the
session rows; a row whose two files exist is listed, a row failing the check
is deleted from the files table by session and display name. -/
def listLoop (sid : String) (disk : List String) :
    List FileRecord → List FileRecord → List FileRecord × List ListedFile
  | [], db => (db, [])
  | f :: rest, db =>
    if bothExist disk sid f.file_path f.thumbnail_path then
      let p := listLoop sid disk rest db
      (p.1, listedOf f :: p.2)
    else
      listLoop sid disk rest
        (db.filter (fun q => !(q.session_id == sid && q.file_name == f.file_name)))

/-- The GET (list) handler of convert/route.ts: self-healing read. -/
def listFilesOp (st : SysState) (sid : String) : SysState × List ListedFile :=
  let snap := st.files.filter (fun r => r.session_id == sid)
  let p := listLoop sid st.disk snap st.files
  ({ st with files := p.1 }, p.2)

/-- The single-file DELETE handler of convert/route.ts: resolve the first row
by display name, unlink its output and thumbnail, unlink the original only
when at most one row of the session references it, delete every row of the
session carrying that display name, and, when the session has no row left,
remove both directories and the sessions row. -/
def deleteOne (st : SysState) (sid fname : String) : SysState :=
  let outD := outDirOf sid
  let origD := origDirOf sid
  let step : List FileRecord × List String :=
    match findRecord st.files sid fname with
    | some r =>
      let d1 := unlinkP st.disk (joinP outD r.file_path)
      let d2 := unlinkP d1 (joinP outD r.thumbnail_path)
      let cnt := countOrig st.files sid r.original_file_name
      let d3 := if cnt ≤ 1 then unlinkP d2 (joinP origD r.original_file_name) else d2
      (st.files.filter (fun q => !(q.session_id == sid && q.file_name == fname)), d3)
    | none => (st.files, st.disk)
  let files1 := step.1
  let disk1 := step.2
  let remaining := (files1.filter (fun q => q.session_id == sid)).length
  if remaining == 0 then
    { sessions := st.sessions.filter (fun s => s != sid),
      files := files1,
      disk := removeTreeP (removeTreeP disk1 outD) origD,
      dirs := st.dirs.filter (fun d => !(d == outD || d == origD)) }
  else
    { st with files := files1, disk := disk1 }

/-- The outcomes of the download GET handler. -/
inductive DlResult
  | missingParams
  | notFound
  | invalidPath
  | served (path : String) (dispositionName : String)
deriving DecidableEq

/-- Node basename: drop trailing slashes, then keep the part after the last
remaining slash; an all-slash input stays a slash and an empty input stays
empty. -/
def basenameP (f : String) : String :=
  let cs := f.data
  let trimmed := (cs.reverse.dropWhile (fun c => c == '/')).reverse
  if trimmed.isEmpty then
    if cs.isEmpty then "" else "/"
  else
    match splitAtSlash trimmed.reverse with
    | some (seg, _) => String.mk seg.reverse
    | none => String.mk trimmed
where
  /-- Split a reversed character list at the first slash. -/
  splitAtSlash : List Char → Option (List Char × List Char)
    | [] => none
    | c :: cs =>
      if c == '/' then some ([], cs)
      else
        match splitAtSlash cs with
        | some (e, r) => some (c :: e, r)
        | none => none

/-- Drop everything from the first slash of a reversed character list,
keeping the remainder. -/
def takeAfterSlash : List Char → Option (List Char)
  | [] => none
  | c :: cs => if c == '/' then some cs else takeAfterSlash cs

/-- Node dirname-like parent as produced by joining with a double-dot
segment: the path up to its last slash, or a dot when it has none. -/
def parentDir (p : String) : String :=
  match takeAfterSlash p.data.reverse with
  | some rest => String.mk rest.reverse
  | none => "."

/-- Node path.join of a base directory and a single slash-free name: a
double-dot collapses to the parent, a dot or an empty name leaves the base. -/
def joinNorm (base name : String) : String :=
  if name == ".." then parentDir base
  else if name == "." || name == "" then base
  else base ++ "/" ++ name

/-- The allowed characters of the sanitized session parameter of
download/route.ts (letters, digits, dash, underscore). -/
def isSessChar (c : Char) : Bool :=
  c.isAlpha || c.isDigit || c == '-' || c == '_'

/-- The sanitized session id of download/route.ts. -/
def sanitizeSession (s : String) : String :=
  String.mk (s.data.filter isSessChar)

/-- The sanitized file parameter of download/route.ts: basename first, then
strip every character outside the safe class. -/
def sanitizeDlFile (f : String) : String :=
  String.mk ((basenameP f).data.filter isSafeChar)

/-- The download GET handler of download/route.ts: sanitize both parameters,
look the sanitized name up in the files table, join it under the session
output directory, reject the result when it escapes that directory, and
otherwise serve the file or fall back to 404. -/
def downloadGet (st : SysState) (session? file? : Option String) : DlResult :=
  match session?, file? with
  | some session, some file =>
    if session == "" || file == "" then .missingParams
    else
      let safeSession := sanitizeSession session
      let safeFile := sanitizeDlFile file
      match st.files.find? (fun r => r.session_id == safeSession && r.file_path == safeFile) with
      | none => .notFound
      | some r =>
        let base := outDirOf safeSession
        let filePath := joinNorm base r.file_path
        if !(strStarts filePath base) then .invalidPath
        else if st.disk.contains filePath then .served filePath safeFile
        else .notFound
  | _, _ => .missingParams

/-! Concrete states and inputs used to exercise the operations. -/

/-- A fixed size oracle standing for the opaque Convert capability. -/
def cszFix : String → String → Nat := fun _ _ => 7

/-- The empty initial state. -/
def st0 : SysState := { sessions := [], files := [], disk := [], dirs := [] }

/-- A healthy row whose two files are on disk. -/
def c1Good : FileRecord :=
  { session_id := "s", file_name := "ok.jpg", file_path := "ok.webp",
    format := "webp", thumbnail_path := "ok_thumb.webp",
    original_file_name := "ok.jpg", original_size := 3, converted_size := 2 }

/-- A stale row whose files are gone from disk. -/
def c1Stale : FileRecord :=
  { session_id := "s", file_name := "gone.jpg", file_path := "gone.webp",
    format := "webp", thumbnail_path := "gone_thumb.webp",
    original_file_name := "gone.jpg", original_size := 3, converted_size := 2 }

/-- A session holding one healthy and one stale row. -/
def c1St : SysState :=
  { sessions := ["s"], files := [c1Good, c1Stale],
    disk := [joinP (outDirOf "s") "ok.webp", joinP (outDirOf "s") "ok_thumb.webp"],
    dirs := [sessDirOf "s", origDirOf "s", outDirOf "s"] }

/-- First of two rows sharing the display name x and the original o.jpg. -/
def c2RecA : FileRecord :=
  { session_id := "s", file_name := "x", file_path := "x.webp",
    format := "webp", thumbnail_path := "x_thumb.webp",
    original_file_name := "o.jpg", original_size := 1, converted_size := 1 }

/-- Second row sharing display name and original with the first. -/
def c2RecB : FileRecord :=
  { session_id := "s", file_name := "x", file_path := "x.jpeg",
    format := "jpeg", thumbnail_path := "x_thumb.webp",
    original_file_name := "o.jpg", original_size := 1, converted_size := 1 }

/-- An unrelated surviving row of the same session. -/
def c2RecC : FileRecord :=
  { session_id := "s", file_name := "y", file_path := "y.webp",
    format := "webp", thumbnail_path := "y_thumb.webp",
    original_file_name := "p.jpg", original_size := 1, converted_size := 1 }

/-- A session with two same-named rows sharing one original plus a third
row, with every referenced file on disk. -/
def c2St : SysState :=
  { sessions := ["s"], files := [c2RecA, c2RecB, c2RecC],
    disk := [joinP (outDirOf "s") "x.webp", joinP (outDirOf "s") "x.jpeg",
             joinP (outDirOf "s") "x_thumb.webp", joinP (outDirOf "s") "y.webp",
             joinP (outDirOf "s") "y_thumb.webp",
             joinP (origDirOf "s") "o.jpg", joinP (origDirOf "s") "p.jpg"],
    dirs := [sessDirOf "s", origDirOf "s", outDirOf "s"] }

/-- A source row derived from the original cat.jpg. -/
def c3Src : FileRecord :=
  { session_id := "s", file_name := "c", file_path := "c.webp",
    format := "webp", thumbnail_path := "c_thumb.webp",
    original_file_name := "cat.jpg", original_size := 50, converted_size := 40 }

/-- A session holding the source row with its output on disk. -/
def c3St : SysState :=
  { sessions := ["s"], files := [c3Src],
    disk := [joinP (outDirOf "s") "c.webp"],
    dirs := [sessDirOf "s", origDirOf "s", outDirOf "s"] }

/-- The upload of the batch exercising original-name commitment. -/
def c3Up : Upload := { name := "my photo!.jpg", mime := "image/jpeg", size := 9 }

/-- A batch with one unsafe-named upload and one reconvert. -/
def c3Inp : PostInput :=
  { format := "webp", sessionId := some "s", freshId := "f",
    uploads := [c3Up], reconverts := [("c", "newname")], ts := "01012025000000" }

/-- The row committed for the upload of that batch. -/
def c3UpRec : FileRecord := mkUploadRec cszFix "s" "webp" c3Up

/-- The row committed for the reconvert of that batch. -/
def c3NewRec : FileRecord :=
  { session_id := "s", file_name := "newname",
    file_path := "newname_01012025000000.webp", format := "webp",
    thumbnail_path := "newname_01012025000000_thumb.webp",
    original_file_name := "newname", original_size := 50, converted_size := 7 }

/-- A source row itself produced by a reconvert during the current second. -/
def c4Src : FileRecord :=
  { session_id := "s", file_name := "c", file_path := "c_02012025120000.webp",
    format := "webp", thumbnail_path := "c_02012025120000_thumb.webp",
    original_file_name := "cat.jpg", original_size := 50, converted_size := 40 }

/-- A session holding that source row and its files. -/
def c4St : SysState :=
  { sessions := ["s"], files := [c4Src],
    disk := [joinP (outDirOf "s") "c_02012025120000.webp",
             joinP (outDirOf "s") "c_02012025120000_thumb.webp",
             joinP (origDirOf "s") "cat.jpg"],
    dirs := [sessDirOf "s", origDirOf "s", outDirOf "s"] }

/-- Two identical reconverts of the same display name in the second the
source itself was produced in. -/
def c4Inp : PostInput :=
  { format := "webp", sessionId := some "s", freshId := "f",
    uploads := [], reconverts := [("c", "c"), ("c", "c")], ts := "02012025120000" }

/-- The descriptor both reconverts of that batch produce. -/
def c4Desc : Desc :=
  { name := "c", normalizedName := "c_02012025120000.webp", format := "webp",
    thumbnail := "c_02012025120000_thumb.webp", originalSize := 50,
    convertedSize := 7 }

/-- A batch pairing a valid upload with one whose MIME type is disallowed. -/
def c5Inp : PostInput :=
  { format := "webp", sessionId := some "s", freshId := "f",
    uploads := [{ name := "good.png", mime := "image/png", size := 5 },
                { name := "bad.txt", mime := "text/plain", size := 5 }],
    reconverts := [], ts := "01012025000000" }

/-- A batch requesting the disallowed format gif. -/
def c6Inp : PostInput :=
  { format := "gif", sessionId := some "s", freshId := "f",
    uploads := [{ name := "cat.jpg", mime := "image/jpeg", size := 5 }],
    reconverts := [], ts := "01012025000000" }

/-- A committed row whose storage name is secret. -/
def c7Rec : FileRecord :=
  { session_id := "s", file_name := "secret.jpg", file_path := "secret",
    format := "webp", thumbnail_path := "secret_thumb.webp",
    original_file_name := "secret.jpg", original_size := 1, converted_size := 1 }

/-- A session holding that row with its output file on disk. -/
def c7St : SysState :=
  { sessions := ["s"], files := [c7Rec],
    disk := [joinP (outDirOf "s") "secret"],
    dirs := [sessDirOf "s", origDirOf "s", outDirOf "s"] }

/-- A pre-existing row occupying the storage name photo.webp. -/
def c8Old : FileRecord :=
  { session_id := "s", file_name := "photo.jpg", file_path := "photo.webp",
    format := "webp", thumbnail_path := "photo_thumb.webp",
    original_file_name := "old-photo.jpg", original_size := 2, converted_size := 2 }

/-- A session holding that row. -/
def c8St : SysState :=
  { sessions := ["s"], files := [c8Old],
    disk := [joinP (outDirOf "s") "photo.webp", joinP (outDirOf "s") "photo_thumb.webp"],
    dirs := [sessDirOf "s", origDirOf "s", outDirOf "s"] }

/-- The colliding upload of the second batch. -/
def c8Up : Upload := { name := "photo.jpg", mime := "image/jpeg", size := 4 }

/-- A fresh upload deriving the already-taken storage name photo.webp. -/
def c8Inp : PostInput :=
  { format := "webp", sessionId := some "s", freshId := "f",
    uploads := [c8Up], reconverts := [], ts := "01012025000000" }

/-- First of the two only rows of a session, sharing the display name x. -/
def c10RecA : FileRecord :=
  { session_id := "s", file_name := "x", file_path := "x.webp",
    format := "webp", thumbnail_path := "x_thumb.webp",
    original_file_name := "o.jpg", original_size := 1, converted_size := 1 }

/-- Second row with the same display name and a distinct output file. -/
def c10RecB : FileRecord :=
  { session_id := "s", file_name := "x", file_path := "x.jpeg",
    format := "jpeg", thumbnail_path := "x_thumb.webp",
    original_file_name := "o.jpg", original_size := 1, converted_size := 1 }

/-- A session whose only two rows share one display name. -/
def c10St : SysState :=
  { sessions := ["s"], files := [c10RecA, c10RecB],
    disk := [joinP (outDirOf "s") "x.webp", joinP (outDirOf "s") "x.jpeg",
             joinP (outDirOf "s") "x_thumb.webp", joinP (origDirOf "s") "o.jpg"],
    dirs := [sessDirOf "s", origDirOf "s", outDirOf "s"] }

/-- An unrelated third row keeping the session nonempty after a delete. -/
def c10RecC : FileRecord :=
  { session_id := "s", file_name := "y", file_path := "y.webp",
    format := "webp", thumbnail_path := "y_thumb.webp",
    original_file_name := "p.jpg", original_size := 1, converted_size := 1 }

/-- A session where deleting the display name x leaves one row behind. -/
def c10StW : SysState :=
  { sessions := ["s"], files := [c10RecA, c10RecC],
    disk := [joinP (outDirOf "s") "x.webp", joinP (outDirOf "s") "x_thumb.webp",
             joinP (outDirOf "s") "y.webp", joinP (outDirOf "s") "y_thumb.webp",
             joinP (origDirOf "s") "o.jpg", joinP (origDirOf "s") "p.jpg"],
    dirs := [sessDirOf "s", origDirOf "s", outDirOf "s"] }

/-! General lemmas about the embedding. -/

/-- Appending strings concatenates their character lists. -/
theorem strData_append (s t : String) : (s ++ t).data = s.data ++ t.data := by
  cases s; cases t; rfl

/-- Rebuilding a string from its characters is the identity. -/
theorem strMk_data (s : String) : String.mk s.data = s := by
  cases s; rfl

/-- Strings with equal character lists are equal. -/
theorem strExt {s t : String} (h : s.data = t.data) : s = t := by
  cases s; cases t; exact congrArg String.mk h

/-- Membership transfer for the boolean contains test on string lists. -/
theorem containsP_iff {l : List String} {p : String} :
    l.contains p = true ↔ p ∈ l := List.elem_iff

/-- A list is a prefix of itself extended by anything. -/
theorem chStarts_append (l m : List Char) : chStarts (l ++ m) l = true := by
  induction l with
  | nil => cases m <;> rfl
  | cons a as ih => simp [chStarts, ih]

/-- A boolean prefix is no longer than the whole. -/
theorem chStarts_length : ∀ (s p : List Char), chStarts s p = true → p.length ≤ s.length
  | _, [], _ => by simp
  | [], _ :: _, h => by simp [chStarts] at h
  | a :: as, b :: bs, h => by
    simp only [chStarts, Bool.and_eq_true] at h
    simpa using chStarts_length as bs h.2

/-- One decimal digit for a small number. -/
theorem natToDec_len1 {n : Nat} (h : n < 10) : (natToDec n).length = 1 := by
  rw [natToDec]
  simp [h]

/-- Unfolding step of the decimal rendering for a large number. -/
theorem natToDec_len_step {n : Nat} (h : 10 ≤ n) :
    (natToDec n).length = (natToDec (n / 10)).length + 1 := by
  rw [natToDec]
  have h' : ¬ n < 10 := by omega
  simp [h']

/-- Two decimal digits between ten and a hundred. -/
theorem natToDec_len2 {n : Nat} (h1 : 10 ≤ n) (h2 : n < 100) :
    (natToDec n).length = 2 := by
  rw [natToDec_len_step h1, natToDec_len1 (by omega)]

/-- Three decimal digits between a hundred and a thousand. -/
theorem natToDec_len3 {n : Nat} (h1 : 100 ≤ n) (h2 : n < 1000) :
    (natToDec n).length = 3 := by
  rw [natToDec_len_step (by omega), natToDec_len2 (by omega) (by omega)]

/-- Four decimal digits between a thousand and ten thousand. -/
theorem natToDec_len4 {n : Nat} (h1 : 1000 ≤ n) (h2 : n < 10000) :
    (natToDec n).length = 4 := by
  rw [natToDec_len_step (by omega), natToDec_len3 (by omega) (by omega)]

/-- The two-digit padding really yields two characters below a hundred. -/
theorem pad2_len {n : Nat} (h : n < 100) : (pad2 n).length = 2 := by
  by_cases h10 : n < 10
  · simp [pad2, h10, natToDec_len1 h10]
  · simp [pad2, h10, natToDec_len2 (by omega) h]

/-- The generated timestamp has exactly fourteen characters whenever the
date components are in their calendar ranges. -/
theorem mkTimestamp_len {day month1 year hour minute second : Nat}
    (hd : day < 100) (hm : month1 < 100) (hy1 : 1000 ≤ year) (hy2 : year < 10000)
    (hh : hour < 100) (hmi : minute < 100) (hs : second < 100) :
    (mkTimestamp day month1 year hour minute second).data.length = 14 := by
  show (pad2 day ++ pad2 month1 ++ natToDec year ++ pad2 hour ++
    pad2 minute ++ pad2 second).length = 14
  simp [List.length_append, pad2_len hd, pad2_len hm, pad2_len hh,
    pad2_len hmi, pad2_len hs, natToDec_len4 hy1 hy2]

/-- Everything in the result of the record upsert fold was already a row or
is one of the inserted rows. -/
theorem mem_insertAllRecs :
    ∀ (rs : List FileRecord) {db : List FileRecord} {r : FileRecord},
      r ∈ insertAllRecs db rs → r ∈ db ∨ r ∈ rs := by
  intro rs
  induction rs with
  | nil => intro db r h; exact Or.inl h
  | cons n rest ih =>
    intro db r h
    rcases @ih (insertOrReplace db n) r h with h' | h'
    · rcases List.mem_append.1 h' with h'' | h''
      · exact Or.inl (List.mem_filter.1 h'').1
      · exact Or.inr (List.mem_cons.2 (Or.inl (List.mem_singleton.1 h'')))
    · exact Or.inr (List.mem_cons.2 (Or.inr h'))

/-- A row that is none of the inserted rows and whose key collides with one
of them is gone after the upsert fold. -/
theorem not_mem_insertAllRecs :
    ∀ (rs : List FileRecord) (r : FileRecord), r ∉ rs →
      (∃ n ∈ rs, n.session_id = r.session_id ∧ n.file_path = r.file_path) →
      ∀ (db : List FileRecord), r ∉ insertAllRecs db rs := by
  intro rs
  induction rs with
  | nil =>
    intro r _ hc db
    rcases hc with ⟨n, hmem, _⟩
    cases hmem
  | cons m rest ih =>
    intro r hn hc db hr
    rcases hc with ⟨n, hmem, hkey⟩
    rcases List.mem_cons.1 hmem with rfl | hnr
    · have hrm : r ∉ insertOrReplace db n := by
        intro hmem'
        rcases List.mem_append.1 hmem' with hf | hsi
        · have hpred := (List.mem_filter.1 hf).2
          simp [hkey.1, hkey.2] at hpred
        · exact hn (by rw [List.mem_singleton.1 hsi]; exact List.mem_cons_self _ _)
      rcases @mem_insertAllRecs rest (insertOrReplace db n) r hr with h' | h'
      · exact hrm h'
      · exact hn (List.mem_cons.2 (Or.inr h'))
    · exact ih r (fun h => hn (List.mem_cons.2 (Or.inr h))) ⟨n, hnr, hkey⟩
        (insertOrReplace db m) hr

/-- A reconvert item that resolves produces the descriptor carrying the
requested display name and the freshly derived names. -/
theorem processReconv_some {csz : String → String → Nat} {files : List FileRecord}
    {disk : List String} {sid fmt ts : String} {q : String × String} {d : Desc}
    (h : processReconv csz files disk sid fmt ts q = some d) :
    d.name = q.2 ∧ d.normalizedName = deriveReconvertName q.2 ts fmt := by
  unfold processReconv at h
  split at h
  · cases h
  · split at h
    · cases h
      exact ⟨rfl, rfl⟩
    · cases h

/-- The underscore placeholder itself belongs to the safe set. -/
theorem isSafeChar_underscore : isSafeChar '_' = true := by decide

/-- Claim C9: for every raw input name the sanitizer output contains only
characters of the safe set (letters, digits, dot, underscore, dash), and the
sanitizer is idempotent; determinism is immediate since it is a function. -/
theorem c9_sanitize_safe_idempotent (s : String) :
    (∀ c ∈ (normalizeFileName s).data, isSafeChar c = true) ∧
    normalizeFileName (normalizeFileName s) = normalizeFileName s := by
  constructor
  · intro c hc
    have hc' : c ∈ s.data.map (fun c => if isSafeChar c then c else '_') := hc
    rcases List.mem_map.1 hc' with ⟨a, _, ha⟩
    by_cases h : isSafeChar a = true
    · rw [← ha]; simp [h]
    · rw [← ha]
      simp only [h, if_neg, Bool.false_eq_true, ↓reduceIte]
      exact isSafeChar_underscore
  · apply strExt
    show ((s.data.map (fun c => if isSafeChar c then c else '_')).map
        (fun c => if isSafeChar c then c else '_')) =
      s.data.map (fun c => if isSafeChar c then c else '_')
    rw [List.map_map]
    apply List.map_congr_left
    intro a _
    by_cases h : isSafeChar a = true
    · simp [Function.comp, h]
    · simp [Function.comp, h, isSafeChar_underscore]

/-- Claim C9 witness at a name containing unsafe characters. -/
theorem c9_sanitize_witness :
    normalizeFileName (normalizeFileName "my photo!.jpg") = normalizeFileName "my photo!.jpg" :=
  (c9_sanitize_safe_idempotent "my photo!.jpg").2

/-- Claim C4 (amended): the derived reconvert storage name is the requested
display name stripped of its extension and of any previous fourteen-digit
suffix, sanitized, then the fresh timestamp and the target extension are
appended; the generated timestamp has fourteen characters for
calendar-range components, and names derived from distinct fourteen-digit
timestamps are always distinct.  No tie-break counter exists: the name is a
function of display name, second and format alone, so two same-second
reconverts of one display name collide (see the counterexample). -/
theorem c4_reconvert_name_shape (toName fmt ts₁ ts₂ : String)
    (day month1 year hour minute second : Nat)
    (hd : day < 100) (hm : month1 < 100) (hy1 : 1000 ≤ year) (hy2 : year < 10000)
    (hh : hour < 100) (hmi : minute < 100) (hs : second < 100)
    (h1 : ts₁.data.length = 14) (h2 : ts₂.data.length = 14) (hne : ts₁ ≠ ts₂) :
    deriveReconvertName toName ts₁ fmt =
      normalizeFileName (String.mk (stripTs14 (stripExtChars toName.data))) ++
        "_" ++ ts₁ ++ "." ++ fmt
    ∧ (mkTimestamp day month1 year hour minute second).data.length = 14
    ∧ deriveReconvertName toName ts₁ fmt ≠ deriveReconvertName toName ts₂ fmt := by
  refine ⟨rfl, mkTimestamp_len hd hm hy1 hy2 hh hmi hs, ?_⟩
  intro heq
  have hdata := congrArg String.data heq
  simp only [deriveReconvertName, deriveReconvertBase, strData_append,
    List.append_assoc] at hdata
  have h' := List.append_cancel_left hdata
  have h'' := List.append_cancel_left h'
  have hts := (List.append_inj h'' (by rw [h1, h2])).1
  exact hne (strExt hts)

/-- Claim C4 witness: two distinct seconds yield distinct derived names. -/
theorem c4_reconvert_name_witness :
    deriveReconvertName "c" "02012025120000" "webp" ≠
      deriveReconvertName "c" "02012025120001" "webp" :=
  (c4_reconvert_name_shape "c" "webp" "02012025120000" "02012025120001"
    2 1 2025 12 0 0 (by decide) (by decide) (by decide) (by decide) (by decide)
    (by decide) (by decide) (by decide) (by decide) (by decide)).2.2

/-- Claim C4 counterexample: two reconverts of the same display name in the
same second derive one and the same storage name, and that name moreover
equals the source row's stored name, so the claimed distinctness and the
claimed impossibility of colliding with the source both fail. -/
theorem c4_counterexample :
    (post cszFix c4St c4Inp).1 = .ok ("s", [c4Desc, c4Desc]) ∧
    c4Desc.normalizedName = c4Src.file_path := by
  constructor
  · rfl
  · rfl

/-- Claim C6: a disallowed output format is rejected as the batch-level 400
unsupported-format error before anything happens: the row tables, the disk
and the directory tree are all returned untouched. -/
theorem c6_unsupported_format (csz : String → String → Nat) (st : SysState)
    (inp : PostInput) (h : ALLOWED_FORMATS.contains inp.format = false) :
    post csz st inp = (.error .unsupportedFormat, st) := by
  unfold post
  rw [h]
  rfl

/-- Claim C6 witness at the format gif of the specified scenario. -/
theorem c6_unsupported_format_witness :
    post cszFix st0 c6Inp = (.error .unsupportedFormat, st0) :=
  c6_unsupported_format cszFix st0 c6Inp (by decide)

/-- A reconvert item whose source row cannot be resolved fails regardless of
the disk contents. -/
theorem processReconv_none {csz : String → String → Nat} {files : List FileRecord}
    {disk : List String} {sid fmt ts : String} {q : String × String}
    (h : findRecord files sid q.1 = none) :
    processReconv csz files disk sid fmt ts q = none := by
  simp [processReconv, h]

/-- Claim C5 (amended): a per-item failure, namely a fresh upload with a
disallowed MIME type or a reconvert whose source row cannot be resolved,
fails the whole batch with the single 500 processing-failure error: no
success list is returned, and neither a files row nor a sessions row is
committed; only the already-written files of the non-failing items remain on
disk. -/
theorem c5_batch_failure (csz : String → String → Nat) (st : SysState) (inp : PostInput)
    (hfmt : ALLOWED_FORMATS.contains inp.format = true)
    (hbad : (∃ u ∈ inp.uploads, ALLOWED_MIME.contains u.mime = false) ∨
      (∃ q ∈ inp.reconverts, findRecord st.files (sidOf inp) q.1 = none)) :
    (post csz st inp).1 = .error .processingFailed ∧
    (post csz st inp).2.files = st.files ∧
    (post csz st inp).2.sessions = st.sessions := by
  unfold post
  rw [hfmt]
  rw [show (!true) = false from rfl]
  rw [if_neg (by simp : ¬ (false = true))]
  by_cases hall : inp.uploads.all (fun u => ALLOWED_MIME.contains u.mime) = true
  · have hbad2 : ∃ q ∈ inp.reconverts, findRecord st.files (sidOf inp) q.1 = none := by
      rcases hbad with ⟨u, hu, hfalse⟩ | h2
      · have := List.all_eq_true.1 hall u hu
        rw [this] at hfalse
        cases hfalse
      · exact h2
    have hany : (rItemsOf csz st inp).any (fun o => o.isNone) = true := by
      rcases hbad2 with ⟨q, hq, hnone⟩
      exact List.any_eq_true.2 ⟨none, List.mem_map.2 ⟨q, hq, processReconv_none hnone⟩, rfl⟩
    rw [hall]
    rw [show (!true) = false from rfl]
    rw [if_neg (by simp : ¬ (false = true))]
    rw [hany, if_pos rfl]
    exact ⟨rfl, rfl, rfl⟩
  · have hall' : inp.uploads.all (fun u => ALLOWED_MIME.contains u.mime) = false :=
      Bool.eq_false_iff.2 hall
    rw [hall']
    rw [show (!false) = true from rfl]
    rw [if_pos rfl]
    exact ⟨rfl, rfl, rfl⟩

/-- Claim C5 witness: the amended behaviour at a concrete two-item batch. -/
theorem c5_batch_failure_witness :
    (post cszFix st0 c5Inp).1 = .error .processingFailed ∧
    (post cszFix st0 c5Inp).2.files = st0.files ∧
    (post cszFix st0 c5Inp).2.sessions = st0.sessions :=
  c5_batch_failure cszFix st0 c5Inp (by decide)
    (Or.inl ⟨{ name := "bad.txt", mime := "text/plain", size := 5 }, by decide, by decide⟩)

/-- Claim C5 counterexample: a batch pairing a valid upload (allowed MIME)
with a disallowed-MIME upload is answered by the single 500
processing-failure error: no success list is produced and no row is
committed, so the valid sibling does not succeed and is not returned,
contrary to the claimed per-item failure isolation. -/
theorem c5_counterexample :
    (post cszFix st0 c5Inp).1 = .error .processingFailed ∧
    (post cszFix st0 c5Inp).2.files = [] ∧
    ALLOWED_MIME.contains "image/png" = true :=
  ⟨rfl, rfl, rfl⟩

/-- Shape of a fully successful POST: the response lists the upload
descriptors then the reconvert descriptors, and exactly the corresponding
rows are upserted. -/
theorem post_ok (csz : String → String → Nat) (st : SysState) (inp : PostInput)
    (h1 : ALLOWED_FORMATS.contains inp.format = true)
    (h2 : inp.uploads.all (fun u => ALLOWED_MIME.contains u.mime) = true)
    (h3 : (rItemsOf csz st inp).any (fun o => o.isNone) = false) :
    post csz st inp =
      (.ok (sidOf inp, inp.uploads.map (mkUploadDesc csz inp.format) ++
          (rItemsOf csz st inp).filterMap id),
       { sessions := insertStr st.sessions (sidOf inp),
         files := insertAllRecs st.files (newRecsOf csz st inp),
         disk := diskFinal csz st inp,
         dirs := dirsAfter st (sidOf inp) }) := by
  unfold post
  rw [h1, show (!true) = false from rfl, if_neg (by simp : ¬ (false = true))]
  rw [h2, show (!true) = false from rfl, if_neg (by simp : ¬ (false = true))]
  rw [h3, if_neg (by simp : ¬ (false = true))]

/-- A POST that answered with a success value passed all three gates. -/
theorem post_ok_inv {csz : String → String → Nat} {st : SysState} {inp : PostInput}
    {out : String × List Desc} (hok : (post csz st inp).1 = Except.ok out) :
    ALLOWED_FORMATS.contains inp.format = true ∧
    inp.uploads.all (fun u => ALLOWED_MIME.contains u.mime) = true ∧
    (rItemsOf csz st inp).any (fun o => o.isNone) = false := by
  unfold post at hok
  by_cases h1 : ALLOWED_FORMATS.contains inp.format = true
  · rw [h1, show (!true) = false from rfl, if_neg (by simp : ¬ (false = true))] at hok
    by_cases h2 : inp.uploads.all (fun u => ALLOWED_MIME.contains u.mime) = true
    · rw [h2, show (!true) = false from rfl, if_neg (by simp : ¬ (false = true))] at hok
      by_cases h3 : (rItemsOf csz st inp).any (fun o => o.isNone) = true
      · rw [h3, if_pos rfl] at hok
        cases hok
      · exact ⟨h1, h2, Bool.eq_false_iff.2 h3⟩
    · rw [Bool.eq_false_iff.2 h2, show (!false) = true from rfl, if_pos rfl] at hok
      cases hok
  · rw [Bool.eq_false_iff.2 h1, show (!false) = true from rfl, if_pos rfl] at hok
    cases hok

/-- Claim C3 (amended): every row present after a POST is either a
pre-existing row, a fresh-upload row whose original-file reference is the
raw (unsanitized) upload name, or a reconvert row whose original-file
reference and display name are both the reconvert's requested display name
(not the source row's original-file reference). -/
theorem c3_committed_origins (csz : String → String → Nat) (st : SysState)
    (inp : PostInput) (r : FileRecord) (hr : r ∈ (post csz st inp).2.files) :
    r ∈ st.files ∨ (∃ u ∈ inp.uploads, r.original_file_name = u.name) ∨
      (∃ q ∈ inp.reconverts, r.original_file_name = q.2 ∧ r.file_name = q.2) := by
  unfold post at hr
  split at hr
  · exact Or.inl hr
  · split at hr
    · exact Or.inl hr
    · split at hr
      · exact Or.inl hr
      · rcases mem_insertAllRecs (newRecsOf csz st inp) hr with h | h
        · exact Or.inl h
        · unfold newRecsOf at h
          rcases List.mem_append.1 h with h' | h'
          · rcases List.mem_map.1 h' with ⟨u, hu, hequ⟩
            refine Or.inr (Or.inl ⟨u, hu, ?_⟩)
            rw [← hequ]
            rfl
          · rcases List.mem_map.1 h' with ⟨d, hd, heqd⟩
            rcases List.mem_filterMap.1 hd with ⟨o, ho, hoeq⟩
            rcases List.mem_map.1 ho with ⟨q, hq, hpq⟩
            have hds : processReconv csz st.files
                (diskConv st (sidOf inp) inp.format inp.uploads)
                (sidOf inp) inp.format inp.ts q = some d := hpq.trans hoeq
            have hname := (processReconv_some hds).1
            refine Or.inr (Or.inr ⟨q, hq, ?_, ?_⟩)
            · rw [← heqd]
              exact hname
            · rw [← heqd]
              exact hname

/-- Claim C3 witness: the amended description at the committed reconvert row
of a concrete batch. -/
theorem c3_committed_origins_witness :
    c3NewRec ∈ c3St.files ∨ (∃ u ∈ c3Inp.uploads, c3NewRec.original_file_name = u.name) ∨
      (∃ q ∈ c3Inp.reconverts, c3NewRec.original_file_name = q.2 ∧ c3NewRec.file_name = q.2) :=
  c3_committed_origins cszFix c3St c3Inp c3NewRec (by decide)

/-- Claim C3 counterexample: in one concrete batch the upload row commits
the raw name my photo!.jpg as its original-file reference although the file
saved in the original area is the sanitized my_photo_.jpg, and the reconvert
row commits its own requested display name newname instead of the source
row's original-file reference cat.jpg. -/
theorem c3_counterexample :
    c3UpRec ∈ (post cszFix c3St c3Inp).2.files ∧
    c3NewRec ∈ (post cszFix c3St c3Inp).2.files ∧
    c3UpRec.original_file_name = "my photo!.jpg" ∧
    safeOrigNameOf "my photo!.jpg" = "my_photo_.jpg" ∧
    joinP (origDirOf "s") "my_photo_.jpg" ∈ (post cszFix c3St c3Inp).2.disk ∧
    c3UpRec.original_file_name ≠ "my_photo_.jpg" ∧
    c3NewRec.original_file_name = "newname" ∧
    findRecord c3St.files "s" "c" = some c3Src ∧
    c3Src.original_file_name = "cat.jpg" := by
  decide

/-- Claim C8 (amended): the storage name derived for a fresh upload is
always the sanitized base joined with the target extension, with no numeric
disambiguator; committing is an upsert keyed on session and storage name, so
a pre-existing row occupying that storage name (one that coincides with no
row of the incoming batch) is removed, that is, overwritten rather than
protected. -/
theorem c8_upload_overwrite (csz : String → String → Nat) (st : SysState)
    (inp : PostInput) (out : String × List Desc)
    (hok : (post csz st inp).1 = Except.ok out) :
    (∀ u ∈ inp.uploads, mkUploadDesc csz inp.format u ∈ out.2 ∧
      (mkUploadDesc csz inp.format u).normalizedName = safeBaseOf u.name ++ "." ++ inp.format) ∧
    (∀ r ∈ st.files, ∀ u ∈ inp.uploads,
      r.session_id = sidOf inp → r.file_path = uploadOutName inp.format u.name →
      (∀ v ∈ inp.uploads, r.original_file_name ≠ v.name) →
      (∀ q ∈ inp.reconverts, r.file_name ≠ q.2) →
      r ∉ (post csz st inp).2.files) := by
  obtain ⟨h1, h2, h3⟩ := post_ok_inv hok
  have hpost := post_ok csz st inp h1 h2 h3
  rw [hpost] at hok
  have hout : (sidOf inp, inp.uploads.map (mkUploadDesc csz inp.format) ++
      (rItemsOf csz st inp).filterMap id) = out := by
    exact Except.ok.inj hok
  constructor
  · intro u hu
    refine ⟨?_, rfl⟩
    rw [← hout]
    exact List.mem_append.2 (Or.inl (List.mem_map.2 ⟨u, hu, rfl⟩))
  · intro r hrmem u hu hsid hpath hnoorig hnoname
    rw [hpost]
    show r ∉ insertAllRecs st.files (newRecsOf csz st inp)
    apply not_mem_insertAllRecs (newRecsOf csz st inp) r
    · intro hmem
      unfold newRecsOf at hmem
      rcases List.mem_append.1 hmem with h' | h'
      · rcases List.mem_map.1 h' with ⟨v, hv, heqv⟩
        apply hnoorig v hv
        rw [← heqv]
        rfl
      · rcases List.mem_map.1 h' with ⟨d, hd, heqd⟩
        rcases List.mem_filterMap.1 hd with ⟨o, ho, hoeq⟩
        rcases List.mem_map.1 ho with ⟨q, hq, hpq⟩
        have hds : processReconv csz st.files
            (diskConv st (sidOf inp) inp.format inp.uploads)
            (sidOf inp) inp.format inp.ts q = some d := hpq.trans hoeq
        apply hnoname q hq
        rw [← heqd]
        exact (processReconv_some hds).1
    · refine ⟨mkUploadRec csz (sidOf inp) inp.format u, ?_, ?_, ?_⟩
      · exact List.mem_append.2 (Or.inl (List.mem_map.2 ⟨u, hu, rfl⟩))
      · exact hsid.symm
      · exact hpath.symm

/-- Claim C8 witness: at a concrete colliding batch the pre-existing row is
removed by the upsert. -/
theorem c8_upload_overwrite_witness :
    c8Old ∉ (post cszFix c8St c8Inp).2.files :=
  (c8_upload_overwrite cszFix c8St c8Inp
      ("s", [mkUploadDesc cszFix "webp" c8Up]) (by rfl)).2
    c8Old (by decide) c8Up (by decide) (by decide) (by decide)
    (by decide) (by decide)

/-- Claim C8 counterexample: uploading photo.jpg into a session whose record
set already holds the storage name photo.webp for the same target format
derives exactly photo.webp again, with no numeric disambiguator, and the
existing record is overwritten, removed from the store by the upsert. -/
theorem c8_counterexample :
    c8Old ∈ c8St.files ∧
    c8Old.file_path = "photo.webp" ∧
    c8Old.format = "webp" ∧
    (post cszFix c8St c8Inp).1 =
      Except.ok ("s", [mkUploadDesc cszFix "webp" c8Up]) ∧
    (mkUploadDesc cszFix "webp" c8Up).normalizedName = "photo.webp" ∧
    c8Old ∉ (post cszFix c8St c8Inp).2.files := by
  exact ⟨by decide, by decide, by decide, by rfl, by decide, by decide⟩

/-- Every entry the reconciliation loop lists passed the double existence
check against the disk. -/
theorem listLoop_listed (sid : String) (disk : List String) :
    ∀ (snap db : List FileRecord) (d : ListedFile), d ∈ (listLoop sid disk snap db).2 →
      bothExist disk sid d.file d.thumbnail = true := by
  intro snap
  induction snap with
  | nil =>
    intro db d hd
    simp [listLoop] at hd
  | cons f rest ih =>
    intro db d hd
    unfold listLoop at hd
    by_cases hc : bothExist disk sid f.file_path f.thumbnail_path = true
    · rw [if_pos hc] at hd
      rcases List.mem_cons.1 hd with rfl | hd'
      · exact hc
      · exact ih db d hd'
    · rw [if_neg hc] at hd
      exact ih _ d hd

/-- The reconciliation loop never adds a row back to the files table. -/
theorem listLoop_no_readd (sid : String) (disk : List String) (f : FileRecord) :
    ∀ (snap db : List FileRecord), f ∉ db → f ∉ (listLoop sid disk snap db).1 := by
  intro snap
  induction snap with
  | nil => intro db hf; exact hf
  | cons g rest ih =>
    intro db hf
    unfold listLoop
    by_cases hc : bothExist disk sid g.file_path g.thumbnail_path = true
    · rw [if_pos hc]
      exact ih db hf
    · rw [if_neg hc]
      apply ih
      intro hmem
      exact hf (List.mem_filter.1 hmem).1

/-- A session row that fails the existence check is removed by the loop. -/
theorem listLoop_removes (sid : String) (disk : List String) (f : FileRecord)
    (hs : f.session_id = sid)
    (hmiss : bothExist disk sid f.file_path f.thumbnail_path = false) :
    ∀ (snap db : List FileRecord), f ∈ snap → f ∉ (listLoop sid disk snap db).1 := by
  intro snap
  induction snap with
  | nil => intro db hf; cases hf
  | cons g rest ih =>
    intro db hf
    rcases List.mem_cons.1 hf with rfl | hf'
    · unfold listLoop
      rw [hmiss]
      rw [if_neg (by simp : ¬ (false = true))]
      apply listLoop_no_readd
      intro hmem
      have hp := (List.mem_filter.1 hmem).2
      simp [hs] at hp
    · unfold listLoop
      by_cases hc : bothExist disk sid g.file_path g.thumbnail_path = true
      · rw [if_pos hc]
        exact ih db hf'
      · rw [if_neg hc]
        exact ih _ hf'

/-- Claim C1: after a list operation, every row whose output or thumbnail
file is missing has been deleted from the files table and its descriptor is
excluded from the returned list, and every returned descriptor has both its
output and its thumbnail file on disk; no error arises, the operation being
total. -/
theorem c1_self_healing (st : SysState) (sid : String) (f : FileRecord)
    (hf : f ∈ st.files) (hs : f.session_id = sid)
    (hmiss : bothExist st.disk sid f.file_path f.thumbnail_path = false) :
    f ∉ (listFilesOp st sid).1.files ∧
    listedOf f ∉ (listFilesOp st sid).2 ∧
    ∀ d ∈ (listFilesOp st sid).2,
      joinP (outDirOf sid) d.file ∈ st.disk ∧ joinP (outDirOf sid) d.thumbnail ∈ st.disk := by
  have hsnap : f ∈ st.files.filter (fun r => r.session_id == sid) :=
    List.mem_filter.2 ⟨hf, by simp [hs]⟩
  refine ⟨?_, ?_, ?_⟩
  · exact listLoop_removes sid st.disk f hs hmiss _ st.files hsnap
  · intro hmem
    have hb := listLoop_listed sid st.disk _ st.files (listedOf f) hmem
    have hb' : bothExist st.disk sid f.file_path f.thumbnail_path = true := hb
    exact absurd (hb'.symm.trans hmiss) (by decide)
  · intro d hd
    have hb := listLoop_listed sid st.disk _ st.files d hd
    unfold bothExist at hb
    rw [Bool.and_eq_true] at hb
    exact ⟨containsP_iff.1 hb.1, containsP_iff.1 hb.2⟩

/-- Claim C1 witness: the stale row of a concrete session is purged and not
listed. -/
theorem c1_self_healing_witness :
    c1Stale ∉ (listFilesOp c1St "s").1.files ∧
    listedOf c1Stale ∉ (listFilesOp c1St "s").2 :=
  ⟨(c1_self_healing c1St "s" c1Stale (by decide) (by decide) (by decide)).1,
   (c1_self_healing c1St "s" c1Stale (by decide) (by decide) (by decide)).2.1⟩

/-- The character list of a join under the original directory. -/
theorem joinP_orig_data (sid a : String) :
    (joinP (origDirOf sid) a).data =
      (sessDirOf sid).data ++
        ('/' :: 'o' :: 'r' :: 'i' :: 'g' :: 'i' :: 'n' :: 'a' :: 'l' :: '/' :: a.data) := by
  show ((sessDirOf sid ++ "/original") ++ "/" ++ a).data = _
  simp only [strData_append, List.append_assoc]
  rfl

/-- The character list of a join under the output directory. -/
theorem joinP_out_data (sid b : String) :
    (joinP (outDirOf sid) b).data =
      (sessDirOf sid).data ++
        ('/' :: 'o' :: 'u' :: 't' :: 'p' :: 'u' :: 't' :: '/' :: b.data) := by
  show ((sessDirOf sid ++ "/output") ++ "/" ++ b).data = _
  simp only [strData_append, List.append_assoc]
  rfl

/-- No path under the original directory coincides with a path under the
output directory of the same session. -/
theorem origJoin_ne_outJoin (sid a b : String) :
    joinP (origDirOf sid) a ≠ joinP (outDirOf sid) b := by
  intro h
  have hd := congrArg String.data h
  rw [joinP_orig_data, joinP_out_data] at hd
  have h2 := List.append_cancel_left hd
  have h3 := congrArg (fun l : List Char => l.get? 2) h2
  simp only [List.get?] at h3
  exact absurd (Option.some.inj h3) (by decide)

/-- Claim C2 (amended): when the resolved row exists, its original path is
on disk, and the session keeps at least one row after the delete, the delete
unlinks the file at the path named by the row's originalFileName exactly
when at most one row of the session referenced that original before the
delete; since the delete then removes every row carrying the given display
name, an original can be left on disk with no surviving referencing row. -/
theorem c2_original_deletion (st : SysState) (sid fname : String) (r : FileRecord)
    (hfind : findRecord st.files sid fname = some r)
    (hdisk : joinP (origDirOf sid) r.original_file_name ∈ st.disk)
    (hrem : ((st.files.filter (fun q => !(q.session_id == sid && q.file_name == fname))).filter
        (fun q => q.session_id == sid)).length ≠ 0) :
    (joinP (origDirOf sid) r.original_file_name ∉ (deleteOne st sid fname).disk ↔
      countOrig st.files sid r.original_file_name ≤ 1) := by
  unfold deleteOne
  rw [hfind]
  dsimp only []
  rw [show ((((st.files.filter
      (fun q => !(q.session_id == sid && q.file_name == fname))).filter
        (fun q => q.session_id == sid)).length == 0)) = false
    from by simpa using hrem]
  rw [if_neg (by simp : ¬ (false = true))]
  by_cases hcnt : countOrig st.files sid r.original_file_name ≤ 1
  · rw [if_pos hcnt]
    refine ⟨fun _ => hcnt, fun _ hmem => ?_⟩
    have := (List.mem_filter.1 hmem).2
    simp at this
  · rw [if_neg hcnt]
    refine ⟨fun hnot => ?_, fun hc => absurd hc hcnt⟩
    exfalso
    apply hnot
    refine List.mem_filter.2 ⟨List.mem_filter.2 ⟨hdisk, ?_⟩, ?_⟩
    · exact bne_iff_ne.2 (origJoin_ne_outJoin sid r.original_file_name r.file_path)
    · exact bne_iff_ne.2 (origJoin_ne_outJoin sid r.original_file_name r.thumbnail_path)

/-- Claim C2 witness: the amended rule at a concrete session where two rows
share the original. -/
theorem c2_original_deletion_witness :
    (joinP (origDirOf "s") "o.jpg" ∉ (deleteOne c2St "s" "x").disk ↔
      countOrig c2St.files "s" "o.jpg" ≤ 1) :=
  c2_original_deletion c2St "s" "x" c2RecA (by decide) (by decide) (by decide)

/-- Claim C2 counterexample: deleting the display name x removes both rows
referencing o.jpg, so no surviving row shares that original, yet the
original file is still on disk because the reference count was taken before
the multi-row delete; the if-and-only-if of the claim fails. -/
theorem c2_counterexample :
    (deleteOne c2St "s" "x").files = [c2RecC] ∧
    c2RecC.original_file_name = "p.jpg" ∧
    joinP (origDirOf "s") "o.jpg" ∈ (deleteOne c2St "s" "x").disk := by
  decide

/-- Claim C10 (amended): when rows share a display name, the delete-one
operation removes every row carrying that name from the files table while
unlinking only the three paths of the single row it resolved first (output,
thumbnail, and possibly original); as long as the session keeps at least one
row, every other path on disk survives, so the other removed rows' distinct
files are orphaned rather than deleted — but when the delete empties the
session, the directory cleanup removes those files as well (see the
counterexample). -/
theorem c10_delete_by_name (st : SysState) (sid fname : String) (r : FileRecord) (p : String)
    (hfind : findRecord st.files sid fname = some r)
    (hrem : ((st.files.filter (fun q => !(q.session_id == sid && q.file_name == fname))).filter
        (fun q => q.session_id == sid)).length ≠ 0)
    (hp : p ∈ st.disk)
    (h1 : p ≠ joinP (outDirOf sid) r.file_path)
    (h2 : p ≠ joinP (outDirOf sid) r.thumbnail_path)
    (h3 : p ≠ joinP (origDirOf sid) r.original_file_name) :
    (deleteOne st sid fname).files =
      st.files.filter (fun q => !(q.session_id == sid && q.file_name == fname)) ∧
    p ∈ (deleteOne st sid fname).disk := by
  unfold deleteOne
  rw [hfind]
  dsimp only []
  rw [show ((((st.files.filter
      (fun q => !(q.session_id == sid && q.file_name == fname))).filter
        (fun q => q.session_id == sid)).length == 0)) = false
    from by simpa using hrem]
  rw [if_neg (by simp : ¬ (false = true))]
  refine ⟨rfl, ?_⟩
  by_cases hcnt : countOrig st.files sid r.original_file_name ≤ 1
  · rw [if_pos hcnt]
    exact List.mem_filter.2
      ⟨List.mem_filter.2 ⟨List.mem_filter.2 ⟨hp, bne_iff_ne.2 h1⟩, bne_iff_ne.2 h2⟩,
       bne_iff_ne.2 h3⟩
  · rw [if_neg hcnt]
    exact List.mem_filter.2 ⟨List.mem_filter.2 ⟨hp, bne_iff_ne.2 h1⟩, bne_iff_ne.2 h2⟩

/-- Claim C10 witness: deleting x in a session that keeps another row leaves
the other row's output file on disk. -/
theorem c10_delete_by_name_witness :
    (deleteOne c10StW "s" "x").files =
      c10StW.files.filter (fun q => !(q.session_id == "s" && q.file_name == "x")) ∧
    joinP (outDirOf "s") "y.webp" ∈ (deleteOne c10StW "s" "x").disk :=
  c10_delete_by_name c10StW "s" "x" c10RecA (joinP (outDirOf "s") "y.webp")
    (by decide) (by decide) (by decide) (by decide) (by decide) (by decide)

/-- Claim C10 counterexample: when the two same-named rows are the whole
session, the delete removes both rows, the remaining count reaches zero, and
the directory cleanup erases the other row's output file from disk — that
file is not left on disk as the claim states. -/
theorem c10_counterexample :
    c10RecB ∈ c10St.files ∧
    c10RecB.file_name = "x" ∧
    c10RecB ≠ c10RecA ∧
    findRecord c10St.files "s" "x" = some c10RecA ∧
    joinP (outDirOf "s") c10RecB.file_path ∈ c10St.disk ∧
    c10RecB ∉ (deleteOne c10St "s" "x").files ∧
    joinP (outDirOf "s") c10RecB.file_path ∉ (deleteOne c10St "s" "x").disk := by
  decide

/-- The sanitized download file parameter never contains a slash. -/
theorem sanitizeDlFile_no_slash (f : String) : '/' ∉ (sanitizeDlFile f).data := by
  intro h
  exact absurd (List.mem_filter.1 h).2 (by decide)

/-- Collapsing a double-dot under the output directory yields the session
directory. -/
theorem parentDir_output (x : String) : parentDir (x ++ "/output") = x := by
  unfold parentDir
  have hrev : (x ++ "/output").data.reverse =
      't' :: 'u' :: 'p' :: 't' :: 'u' :: 'o' :: '/' :: x.data.reverse := by
    rw [strData_append, List.reverse_append]
    rfl
  rw [hrev]
  simp [takeAfterSlash, List.reverse_reverse, strMk_data]

/-- Claim C7 (amended): whatever the requested storage name, a served
download is read from inside the session's own output directory: the
sanitization (basename plus character strip) leaves a slash-free lookup
name, and the path-normalizing join can only produce the output directory
itself or a path strictly below it; traversal inputs are neutralized rather
than rejected. -/
theorem c7_download_sandbox (st : SysState) (session file p n : String)
    (h : downloadGet st (some session) (some file) = .served p n) :
    (p = outDirOf (sanitizeSession session) ∨
      strStarts p (outDirOf (sanitizeSession session) ++ "/") = true) ∧
    '/' ∉ n.data := by
  unfold downloadGet at h
  dsimp only [] at h
  by_cases he : (session == "" || file == "") = true
  · rw [if_pos he] at h
    cases h
  · rw [if_neg he] at h
    cases hfind : st.files.find? (fun r =>
        r.session_id == sanitizeSession session && r.file_path == sanitizeDlFile file) with
    | none =>
      rw [hfind] at h
      cases h
    | some r =>
      rw [hfind] at h
      dsimp only [] at h
      have hfp : r.file_path = sanitizeDlFile file := by
        have hpred := List.find?_some hfind
        rw [Bool.and_eq_true] at hpred
        exact beq_iff_eq.1 hpred.2
      by_cases hst : strStarts (joinNorm (outDirOf (sanitizeSession session)) r.file_path)
          (outDirOf (sanitizeSession session)) = true
      · rw [hst, show (!true) = false from rfl] at h
        rw [if_neg (by simp : ¬ (false = true))] at h
        by_cases hcon : st.disk.contains
            (joinNorm (outDirOf (sanitizeSession session)) r.file_path) = true
        · rw [if_pos hcon] at h
          injection h with hp hn
          subst hp
          subst hn
          refine ⟨?_, sanitizeDlFile_no_slash file⟩
          by_cases hdd : (r.file_path == "..") = true
          · exfalso
            have hdd' : r.file_path = ".." := beq_iff_eq.1 hdd
            have hjn : joinNorm (outDirOf (sanitizeSession session)) r.file_path =
                parentDir (sessDirOf (sanitizeSession session) ++ "/output") := by
              unfold joinNorm
              rw [if_pos hdd]
              rfl
            rw [hjn, parentDir_output] at hst
            have hlen := chStarts_length _ _ hst
            unfold outDirOf at hlen
            rw [strData_append, List.length_append] at hlen
            rw [show ("/output" : String).data.length = 7 from rfl] at hlen
            omega
          · by_cases hdot : (r.file_path == "." || r.file_path == "") = true
            · refine Or.inl ?_
              unfold joinNorm
              rw [if_neg hdd]
              exact if_pos hdot
            · refine Or.inr ?_
              have hjn : joinNorm (outDirOf (sanitizeSession session)) r.file_path =
                  (outDirOf (sanitizeSession session) ++ "/") ++ r.file_path := by
                unfold joinNorm
                rw [if_neg hdd, if_neg hdot]
              rw [hjn]
              show chStarts ((outDirOf (sanitizeSession session) ++ "/") ++ r.file_path).data
                (outDirOf (sanitizeSession session) ++ "/").data = true
              rw [strData_append]
              exact chStarts_append _ _
        · rw [if_neg hcon] at h
          cases h
      · rw [Bool.eq_false_iff.2 hst, show (!false) = true from rfl] at h
        rw [if_pos rfl] at h
        cases h

/-- Claim C7 witness: a concrete served download lies below the session's
output directory. -/
theorem c7_download_sandbox_witness :
    ("tmp/image-optimizer/s/output/secret" = outDirOf (sanitizeSession "s") ∨
      strStarts "tmp/image-optimizer/s/output/secret"
        (outDirOf (sanitizeSession "s") ++ "/") = true) ∧
    '/' ∉ ("secret" : String).data :=
  c7_download_sandbox c7St "s" "secret" "tmp/image-optimizer/s/output/secret" "secret"
    (by decide)

/-- Claim C7 counterexample: a storage name carrying a dot-dot-slash segment
is not rejected as the invalid-path 400 response; the basename reduction
turns it into the plain name secret, the lookup succeeds, and the file is
read and served, contradicting the claim that such a request is rejected
before any file read. -/
theorem c7_counterexample :
    ("../secret" : String) = ".." ++ "/" ++ "secret" ∧
    downloadGet c7St (some "s") (some "../secret") =
      .served (joinP (outDirOf "s") "secret") "secret" ∧
    downloadGet c7St (some "s") (some "../secret") ≠ .invalidPath := by
  refine ⟨rfl, by decide, by decide⟩
